import Mathlib

/-! The upload-and-poll browser client (`frontend/app.js`).

The script keeps one global, `taskId`, and has two `async` functions,
`uploadFile` and `checkProgress`.  An `async` function runs synchronously up to
its first `await`; the rest of its body runs later, when the awaited request
settles.  Each function is therefore embedded as two state transformers on a
`Page`: the synchronous part (named after the function) and the continuation
(`...Resume`).  The browser's event loop is the function `step`, which takes one
`Event` at a time: a call of a function, a request that settles, time that
passes, a timer that fires.

What the script cannot see is not modelled: a `fetch` followed by
`response.json()` is one `...Settled` event, which carries `none` when either
promise rejects and the field the script reads from the parsed body otherwise.
The DOM elements are plain holders of the property the script assigns.  The
conversion of a number to a string, which the language performs inside a
template literal, is a parameter of the model, `numStr`: every statement holds
whatever that conversion is.
-/

namespace FastParser

/-! ## Data model -/

/-- JavaScript values that the `task_id` field of a JSON body can hold
(a number is given by its value, here an integer), plus `undefined` for an
absent field. -/
inductive JsVal where
  | undefined
  | null
  | bool (b : Bool)
  | num (n : Int)
  | str (s : String)
  deriving DecidableEq, Repr

/-- JavaScript truthiness, as tested by `!taskId`. -/
def JsVal.truthy : JsVal → Bool
  | .undefined => false
  | .null => false
  | .bool b => b
  | .num n => n != 0
  | .str s => s != ""

/-- String conversion of a value inside a template literal.  The conversion
of a number is the language's own (digits for small values, exponent form for
large ones); it is not part of the script and is the parameter `numStr`. -/
def JsVal.toStr (numStr : Int → String) : JsVal → String
  | .undefined => "undefined"
  | .null => "null"
  | .bool true => "true"
  | .bool false => "false"
  | .num n => numStr n
  | .str s => s

/-- Decimal digits, with a minus sign for a negative number: the conversion
JavaScript applies to an integer it holds exactly (at most 2^53 - 1 in absolute
value).  It stands for `numStr` in the concrete runs below, whose numbers are
all of that kind. -/
def decimal (n : Int) : String := toString n

/-- A file of the file input, identified by its name. -/
abbrev File := String

/-- A `FormData` object: its fields in the order they were appended. -/
abbrev FormData := List (String × File)

/-- `formData.append(name, value)`. -/
def FormData.append (fd : FormData) (name : String) (value : File) : FormData :=
  fd ++ [(name, value)]

/-- A request handed to `fetch`. -/
inductive Request where
  | post (url : String) (body : FormData)
  | get (url : String)
  deriving DecidableEq, Repr

/-- Functions the script passes to `setTimeout`. -/
inductive Callback where
  | checkProgress
  deriving DecidableEq, Repr

/-- A pending `setTimeout`: its callback, the delay asked for (ms) and the
time from which it may fire. -/
structure Timer where
  callback : Callback
  delay : Nat
  due : Nat
  deriving DecidableEq, Repr

/-- A suspended `async` function, waiting for its request to settle. -/
inductive Pending where
  | upload
  | progress
  deriving DecidableEq, Repr

/-- The state of the page. -/
structure Page where
  /-- The global `taskId`. -/
  taskId : JsVal
  /-- The selection of `fileInput`, `fileInput.files`. -/
  files : List File
  /-- The property `progressBar.value`. -/
  progressBar : Int
  /-- The property `status.innerText`. -/
  status : String
  /-- The clock, in ms. -/
  now : Nat
  /-- Pending timers. -/
  timers : List Timer
  /-- Suspended functions, one per request in flight. -/
  inflight : List Pending
  /-- Every request issued so far, oldest first. -/
  requests : List Request
  /-- Number of rejected promises nobody handles. -/
  errors : Nat
  deriving DecidableEq, Repr

/-- The page as loaded: `let taskId = null`, nothing issued or pending. -/
def Page.load (files : List File) (bar : Int) (status : String) : Page :=
  { taskId := .null, files := files, progressBar := bar, status := status,
    now := 0, timers := [], inflight := [], requests := [], errors := 0 }

/-! ## The script -/

/-- The upload endpoint. -/
def uploadUrl : String := "http://localhost:8000/upload/"

/-- The progress endpoint of a task: the template literal of `checkProgress`. -/
def progressUrl (numStr : Int → String) (taskId : JsVal) : String :=
  "http://localhost:8000/progress/" ++ taskId.toStr numStr

/-- The status text while the task runs: the template literal of
`checkProgress`, with the language's conversion `numStr` of `data.progress`. -/
def progressText (numStr : Int → String) (p : Int) : String :=
  "Прогресс: " ++ numStr p ++ "%"

/-- The status text of a finished task. -/
def doneText : String := "Готово! Можно скачать результат."

/-- `setTimeout(cb, delay)`. -/
def setTimeout (s : Page) (cb : Callback) (delay : Nat) : Page :=
  { s with timers := s.timers ++ [{ callback := cb, delay := delay, due := s.now + delay }] }

/-- `fetch(...)` followed by `await`: the request is issued and the calling
function is suspended. -/
def fetchAwait (s : Page) (r : Request) (k : Pending) : Page :=
  { s with requests := s.requests ++ [r], inflight := s.inflight ++ [k] }

/-- The function `checkProgress`, up to its first `await`. -/
def checkProgress (numStr : Int → String) (s : Page) : Page :=
  if !s.taskId.truthy then s
  else fetchAwait s (.get (progressUrl numStr s.taskId)) .progress

/-- The function `checkProgress`, from the moment `data` is available:
`none` when `fetch` or `response.json()` rejected or the body is `null` (so
that reading `data.progress` throws), otherwise the value of `data.progress`,
taken to be an integer. -/
def checkProgressResume (numStr : Int → String) (s : Page) (data : Option Int) : Page :=
  match data with
  | none => { s with errors := s.errors + 1 }
  | some progress =>
    let s := { s with progressBar := progress }
    let s := { s with status := progressText numStr progress }
    if progress < 100 then setTimeout s .checkProgress 2000
    else { s with status := doneText }

/-- The function `uploadFile`, up to its first `await`. -/
def uploadFile (s : Page) : Page :=
  if h : s.files.length = 0 then s
  else
    let formData : FormData := FormData.append [] "file" (s.files.get ⟨0, Nat.pos_of_ne_zero h⟩)
    fetchAwait s (.post uploadUrl formData) .upload

/-- The function `uploadFile`, from the moment `data` is available: `none`
when `fetch` or `response.json()` rejected or the body is `null` (so that
reading `data.task_id` throws), otherwise `data.task_id` (`undefined` when the
body has no such field). -/
def uploadFileResume (numStr : Int → String) (s : Page) (data : Option JsVal) : Page :=
  match data with
  | none => { s with errors := s.errors + 1 }
  | some task_id => checkProgress numStr { s with taskId := task_id }

/-! ## The event loop -/

/-- What can happen to the page. -/
inductive Event where
  /-- The user changes the selection of the file input. -/
  | selectFiles (fs : List File)
  /-- A call `uploadFile()`. -/
  | callUploadFile
  /-- A call `checkProgress()`. -/
  | callCheckProgress
  /-- The request of the `i`-th suspended function, an upload, settles. -/
  | uploadSettled (i : Nat) (data : Option JsVal)
  /-- The request of the `i`-th suspended function, a poll, settles. -/
  | progressSettled (i : Nat) (data : Option Int)
  /-- Time passes. -/
  | tick (d : Nat)
  /-- The `j`-th pending timer fires. -/
  | timerFires (j : Nat)
  deriving DecidableEq, Repr

/-- Running a timer callback. -/
def runCallback (numStr : Int → String) (s : Page) : Callback → Page
  | .checkProgress => checkProgress numStr s

/-- One turn of the event loop.  An event that cannot happen in `s` (no such
suspended function, no such timer, timer not yet due) leaves `s` as it is. -/
def step (numStr : Int → String) (s : Page) : Event → Page
  | .selectFiles fs => { s with files := fs }
  | .callUploadFile => uploadFile s
  | .callCheckProgress => checkProgress numStr s
  | .uploadSettled i data =>
    if s.inflight[i]? = some .upload then
      uploadFileResume numStr { s with inflight := s.inflight.eraseIdx i } data
    else s
  | .progressSettled i data =>
    if s.inflight[i]? = some .progress then
      checkProgressResume numStr { s with inflight := s.inflight.eraseIdx i } data
    else s
  | .tick d => { s with now := s.now + d }
  | .timerFires j =>
    match s.timers[j]? with
    | some tm =>
      if tm.due ≤ s.now then
        runCallback numStr { s with timers := s.timers.eraseIdx j } tm.callback
      else s
    | none => s

/-- A run of the event loop. -/
def run (numStr : Int → String) (s : Page) (es : List Event) : Page :=
  es.foldl (step numStr) s

/-- The requests issued by the event `e` taken in `s`. -/
def issued (numStr : Int → String) (s : Page) (e : Event) : List Request :=
  (step numStr s e).requests.drop s.requests.length

/-- The requests issued during the run `es` from `s`. -/
def issuedBy (numStr : Int → String) (s : Page) (es : List Event) : List Request :=
  (run numStr s es).requests.drop s.requests.length

/-- The events of one poll chain whose requests are answered with the values
`ps`, each below 100, and then with `last`: every answer but the last is
followed by the 2000 ms wait and the timer. -/
def pollEvents : List Int → Int → List Event
  | [], last => [.progressSettled 0 (some last)]
  | p :: ps, last =>
    .progressSettled 0 (some p) :: .tick 2000 :: .timerFires 0 :: pollEvents ps last

/-- A progress request. -/
def Request.isGet : Request → Bool
  | .get _ => true
  | .post _ _ => false

/-- An upload that settles with a body. -/
def Event.isUploadBody : Event → Bool
  | .uploadSettled _ (some _) => true
  | _ => false

/-! ## Basic facts -/

theorem checkProgress_truthy (numStr : Int → String) (s : Page) (h : s.taskId.truthy = true) :
    checkProgress numStr s = fetchAwait s (.get (progressUrl numStr s.taskId)) .progress := by
  simp [checkProgress, h]

theorem checkProgress_falsy (numStr : Int → String) (s : Page) (h : s.taskId.truthy = false) :
    checkProgress numStr s = s := by
  simp [checkProgress, h]

theorem uploadFile_cons (s : Page) (f : File) (rest : List File) (h : s.files = f :: rest) :
    uploadFile s = fetchAwait s (.post uploadUrl [("file", f)]) .upload := by
  simp [uploadFile, h, FormData.append]

theorem uploadFile_nil (s : Page) (h : s.files.length = 0) : uploadFile s = s := by
  simp [uploadFile, h]

theorem truthy_ne_null (t : JsVal) (h : t.truthy = true) : t ≠ .null := by
  intro hn
  subst hn
  simp [JsVal.truthy] at h

/-! ## Claims -/

/-- C1: with no file selected, `uploadFile` is a no-op: the page after the call
is the page before it, so no request is issued (neither to the upload nor to
the progress endpoint), no timer is scheduled, and the stored task identifier,
the progress bar value and the status text are unchanged. -/
theorem uploadFile_without_file_is_noop (numStr : Int → String)
    (s : Page) (h : s.files.length = 0) :
    step numStr s .callUploadFile = s ∧ issued numStr s .callUploadFile = [] := by
  have hs : step numStr s .callUploadFile = s := uploadFile_nil s h
  exact ⟨hs, by simp [issued, hs]⟩

theorem uploadFile_without_file_is_noop_witness :
    (Page.load [] 0 "").files.length = 0 ∧
      step decimal (Page.load [] 0 "") .callUploadFile = Page.load [] 0 "" ∧
      issued decimal (Page.load [] 0 "") .callUploadFile = [] :=
  ⟨rfl, uploadFile_without_file_is_noop decimal (Page.load [] 0 "") rfl⟩

/-- C2 (counterexample): one file is selected and the upload answers with the
task identifier `""`; the identifier is stored, but no progress request is
issued. -/
theorem upload_with_empty_id_issues_no_poll :
    (Page.load ["a.pdf"] 0 "").files.length ≠ 0 ∧
      (step decimal (Page.load ["a.pdf"] 0 "") .callUploadFile).inflight[0]? = some .upload ∧
      (step decimal (step decimal (Page.load ["a.pdf"] 0 "") .callUploadFile)
        (.uploadSettled 0 (some (.str "")))).taskId = .str "" ∧
      issued decimal (step decimal (Page.load ["a.pdf"] 0 "") .callUploadFile)
        (.uploadSettled 0 (some (.str ""))) = [] := by
  decide

/-- C2 (amended): with at least one file selected, `uploadFile` issues the
upload and suspends; when that upload, still in flight in whatever state `s1`
the page has by then, answers with the task identifier `t`, the stored
identifier becomes `t`, and in the same turn (clock and timers untouched)
exactly one progress request, for `t`, is issued if `t` is truthy, and none
if `t` is falsy. -/
theorem upload_stores_id_then_polls (numStr : Int → String)
    (s : Page) (t : JsVal) (hf : s.files.length ≠ 0) :
    (step numStr s .callUploadFile).inflight = s.inflight ++ [.upload] ∧
      ∀ (s1 : Page) (i : Nat), s1.inflight[i]? = some .upload →
        (step numStr s1 (.uploadSettled i (some t))).taskId = t ∧
        (step numStr s1 (.uploadSettled i (some t))).now = s1.now ∧
        (step numStr s1 (.uploadSettled i (some t))).timers = s1.timers ∧
        (t.truthy = true →
          issued numStr s1 (.uploadSettled i (some t)) = [.get (progressUrl numStr t)]) ∧
        (t.truthy = false → issued numStr s1 (.uploadSettled i (some t)) = []) := by
  constructor
  · obtain ⟨f, rest, hfr⟩ : ∃ f rest, s.files = f :: rest := by
      cases hfs : s.files with
      | nil => simp [hfs] at hf
      | cons f rest => exact ⟨f, rest, rfl⟩
    simp [step, uploadFile_cons s f rest hfr, fetchAwait]
  · intro s1 i hi
    cases ht : t.truthy <;>
      simp [step, issued, hi, uploadFileResume, checkProgress, fetchAwait, ht]

theorem upload_stores_id_then_polls_witness :
    (Page.load ["a.pdf"] 0 "").files.length ≠ 0 ∧
      (step decimal (step decimal (Page.load ["a.pdf"] 0 "") .callUploadFile)
        (.uploadSettled 0 (some (.str "t1")))).taskId = .str "t1" ∧
      issued decimal (step decimal (Page.load ["a.pdf"] 0 "") .callUploadFile)
        (.uploadSettled 0 (some (.str "t1"))) = [.get (progressUrl decimal (.str "t1"))] :=
  ⟨by decide,
    ((upload_stores_id_then_polls decimal (Page.load ["a.pdf"] 0 "") (.str "t1") (by decide)).2
      (step decimal (Page.load ["a.pdf"] 0 "") .callUploadFile) 0 (by decide)).1,
    ((upload_stores_id_then_polls decimal (Page.load ["a.pdf"] 0 "") (.str "t1") (by decide)).2
      (step decimal (Page.load ["a.pdf"] 0 "") .callUploadFile) 0 (by decide)).2.2.2.1
      (by decide)⟩

/-- C3 (counterexample): a poll answered with progress 101 schedules no further
poll and leaves the completion message, although 101 is not 100. -/
theorem poll_stops_on_progress_101 :
    (run decimal (Page.load ["a.pdf"] 0 "")
        [.callUploadFile, .uploadSettled 0 (some (.str "t1"))]).inflight[0]? = some .progress ∧
      (run decimal (Page.load ["a.pdf"] 0 "")
        [.callUploadFile, .uploadSettled 0 (some (.str "t1")),
          .progressSettled 0 (some 101)]).timers = [] ∧
      (run decimal (Page.load ["a.pdf"] 0 "")
        [.callUploadFile, .uploadSettled 0 (some (.str "t1")),
          .progressSettled 0 (some 101)]).status = doneText ∧
      (101 : Int) ≠ 100 := by
  decide

/-- C3 (amended): when a poll in flight is answered with progress `p`,
`checkProgress` schedules exactly one further call of `checkProgress`, with a
delay of 2000 ms, if and only if `p < 100`; it schedules nothing and leaves
the completion message as status text exactly when `100 ≤ p`; and it issues no
request in that turn. -/
theorem poll_reschedules_iff_below_100 (numStr : Int → String) (s : Page) (i : Nat) (p : Int)
    (hi : s.inflight[i]? = some .progress) :
    ((step numStr s (.progressSettled i (some p))).timers =
        s.timers ++ [{ callback := .checkProgress, delay := 2000, due := s.now + 2000 }]
      ↔ p < 100) ∧
    (((step numStr s (.progressSettled i (some p))).timers = s.timers ∧
        (step numStr s (.progressSettled i (some p))).status = doneText)
      ↔ 100 ≤ p) ∧
    issued numStr s (.progressSettled i (some p)) = [] := by
  by_cases hp : p < 100
  · simp [step, issued, hi, checkProgressResume, setTimeout, hp]
  · have hp2 : 100 ≤ p := not_lt.mp hp
    simp [step, issued, hi, checkProgressResume, setTimeout, hp, hp2]

theorem poll_reschedules_iff_below_100_witness :
    (step decimal (run decimal (Page.load ["a.pdf"] 0 "")
        [.callUploadFile, .uploadSettled 0 (some (.str "t1"))])
      (.progressSettled 0 (some 50))).timers =
        (run decimal (Page.load ["a.pdf"] 0 "")
          [.callUploadFile, .uploadSettled 0 (some (.str "t1"))]).timers ++
          [{ callback := .checkProgress, delay := 2000,
             due := (run decimal (Page.load ["a.pdf"] 0 "")
              [.callUploadFile, .uploadSettled 0 (some (.str "t1"))]).now + 2000 }] :=
  (poll_reschedules_iff_below_100 decimal
    (run decimal (Page.load ["a.pdf"] 0 "") [.callUploadFile, .uploadSettled 0 (some (.str "t1"))])
    0 50 (by decide)).1.mpr (by decide)

/-- One chain of polls, from the state in which its first request is in
flight: answers `ps`, all below 100, then an answer `last` of at least 100. -/
theorem run_pollEvents (numStr : Int → String)
    (ps : List Int) (last : Int) (hps : ∀ p ∈ ps, p < 100)
    (hlast : 100 ≤ last) (s : Page) (ht : s.taskId.truthy = true)
    (hin : s.inflight = [.progress]) (htm : s.timers = []) :
    run numStr s (pollEvents ps last) =
      { s with
        progressBar := last, status := doneText, now := s.now + 2000 * ps.length,
        timers := [], inflight := [],
        requests :=
          s.requests ++ List.replicate ps.length (.get (progressUrl numStr s.taskId)) } := by
  induction ps generalizing s with
  | nil =>
    obtain ⟨tid, fs, bar, st, now, tms, infl, reqs, errs⟩ := s
    simp only at hin htm
    subst hin htm
    have hl : ¬ last < 100 := not_lt.mpr hlast
    simp [run, pollEvents, step, checkProgressResume, hl]
  | cons p ps ih =>
    obtain ⟨tid, fs, bar, st, now, tms, infl, reqs, errs⟩ := s
    simp only at hin htm ht
    subst hin htm
    have hp : p < 100 := hps p (by simp)
    have hps2 : ∀ q ∈ ps, q < 100 := fun q hq => hps q (by simp [hq])
    have h3 : run numStr (Page.mk tid fs bar st now [] [.progress] reqs errs)
        (pollEvents (p :: ps) last) =
        run numStr (Page.mk tid fs p (progressText numStr p) (now + 2000) [] [.progress]
          (reqs ++ [.get (progressUrl numStr tid)]) errs) (pollEvents ps last) := by
      simp [run, pollEvents, step, checkProgressResume, setTimeout, runCallback,
        checkProgress, fetchAwait, hp, ht]
    rw [h3, ih hps2 _ ht rfl rfl]
    simp [List.replicate_succ, Nat.mul_add, Nat.add_assoc, Nat.add_comm]

/-- C4: a single upload (a file is selected, the upload answers with a truthy
task identifier `t`) whose polls are answered with `n` values below 100 and
then with 100 issues, after the upload, exactly `n + 1` requests, all of them
progress requests for `t`, and then stops: no timer is pending, no request is
in flight, the progress bar shows 100 and the status text is the completion
message. -/
theorem single_upload_polls_n_plus_one (numStr : Int → String)
    (files : List File) (bar : Int) (status : String)
    (t : JsVal) (ps : List Int) (hf : files ≠ []) (ht : t.truthy = true)
    (hps : ∀ p ∈ ps, p < 100) :
    (run numStr (Page.load files bar status)
        (.callUploadFile :: .uploadSettled 0 (some t) :: pollEvents ps 100)).requests =
      .post uploadUrl [("file", files.head hf)] ::
        List.replicate (ps.length + 1) (.get (progressUrl numStr t)) ∧
    ((run numStr (Page.load files bar status)
        (.callUploadFile :: .uploadSettled 0 (some t) :: pollEvents ps 100)).requests.filter
      Request.isGet).length = ps.length + 1 ∧
    (run numStr (Page.load files bar status)
        (.callUploadFile :: .uploadSettled 0 (some t) :: pollEvents ps 100)).timers = [] ∧
    (run numStr (Page.load files bar status)
        (.callUploadFile :: .uploadSettled 0 (some t) :: pollEvents ps 100)).inflight = [] ∧
    (run numStr (Page.load files bar status)
        (.callUploadFile :: .uploadSettled 0 (some t) :: pollEvents ps 100)).progressBar = 100 ∧
    (run numStr (Page.load files bar status)
        (.callUploadFile :: .uploadSettled 0 (some t) :: pollEvents ps 100)).status = doneText := by
  obtain ⟨f, rest, rfl⟩ : ∃ f rest, files = f :: rest := by
    cases files with
    | nil => exact absurd rfl hf
    | cons f rest => exact ⟨f, rest, rfl⟩
  have h2 : run numStr (Page.load (f :: rest) bar status)
      (.callUploadFile :: .uploadSettled 0 (some t) :: pollEvents ps 100) =
      run numStr (Page.mk t (f :: rest) bar status 0 [] [.progress]
        [.post uploadUrl [("file", f)], .get (progressUrl numStr t)] 0) (pollEvents ps 100) := by
    simp [run, step, Page.load, uploadFile, FormData.append, fetchAwait, uploadFileResume,
      checkProgress, ht]
  rw [h2, run_pollEvents numStr ps 100 hps (le_refl _) _ ht rfl rfl]
  simp [List.replicate_succ, Request.isGet, List.filter_replicate]

theorem single_upload_polls_n_plus_one_witness :
    (run decimal (Page.load ["a.pdf"] 0 "")
        (.callUploadFile :: .uploadSettled 0 (some (.str "t1")) ::
          pollEvents [0, 50] 100)).requests =
      [.post uploadUrl [("file", "a.pdf")], .get (progressUrl decimal (.str "t1")),
        .get (progressUrl decimal (.str "t1")), .get (progressUrl decimal (.str "t1"))] ∧
    ((run decimal (Page.load ["a.pdf"] 0 "")
        (.callUploadFile :: .uploadSettled 0 (some (.str "t1")) ::
          pollEvents [0, 50] 100)).requests.filter Request.isGet).length = 3 ∧
    (run decimal (Page.load ["a.pdf"] 0 "")
        (.callUploadFile :: .uploadSettled 0 (some (.str "t1")) ::
          pollEvents [0, 50] 100)).timers = [] ∧
    (run decimal (Page.load ["a.pdf"] 0 "")
        (.callUploadFile :: .uploadSettled 0 (some (.str "t1")) ::
          pollEvents [0, 50] 100)).inflight = [] ∧
    (run decimal (Page.load ["a.pdf"] 0 "")
        (.callUploadFile :: .uploadSettled 0 (some (.str "t1")) ::
          pollEvents [0, 50] 100)).progressBar = 100 ∧
    (run decimal (Page.load ["a.pdf"] 0 "")
        (.callUploadFile :: .uploadSettled 0 (some (.str "t1")) ::
          pollEvents [0, 50] 100)).status = doneText :=
  single_upload_polls_n_plus_one decimal ["a.pdf"] 0 "" (.str "t1") [0, 50] (by decide) (by decide)
    (by decide)

/-- The request log only grows: a turn appends what it issues. -/
theorem step_requests (numStr : Int → String) (s : Page) (e : Event) :
    (step numStr s e).requests = s.requests ++ issued numStr s e := by
  have key : ∃ l, (step numStr s e).requests = s.requests ++ l := by
    cases e with
    | selectFiles fs => exact ⟨[], by simp [step]⟩
    | callUploadFile =>
      by_cases h : s.files.length = 0
      · exact ⟨[], by simp [step, uploadFile, h]⟩
      · exact ⟨_, by simp [step, uploadFile, h, fetchAwait]; rfl⟩
    | callCheckProgress =>
      cases ht : s.taskId.truthy
      · exact ⟨[], by simp [step, checkProgress, ht]⟩
      · exact ⟨_, by simp [step, checkProgress, ht, fetchAwait]; rfl⟩
    | uploadSettled i data =>
      by_cases hi : s.inflight[i]? = some .upload
      · cases data with
        | none => exact ⟨[], by simp [step, hi, uploadFileResume]⟩
        | some t =>
          cases ht : t.truthy
          · exact ⟨[], by simp [step, hi, uploadFileResume, checkProgress, ht]⟩
          · exact ⟨_, by simp [step, hi, uploadFileResume, checkProgress, ht, fetchAwait]; rfl⟩
      · exact ⟨[], by simp [step, hi]⟩
    | progressSettled i data =>
      by_cases hi : s.inflight[i]? = some .progress
      · cases data with
        | none => exact ⟨[], by simp [step, hi, checkProgressResume]⟩
        | some p =>
          by_cases hp : p < 100
          · exact ⟨[], by simp [step, hi, checkProgressResume, setTimeout, hp]⟩
          · exact ⟨[], by simp [step, hi, checkProgressResume, hp]⟩
      · exact ⟨[], by simp [step, hi]⟩
    | tick d => exact ⟨[], by simp [step]⟩
    | timerFires j =>
      cases hj : s.timers[j]? with
      | none => exact ⟨[], by simp [step, hj]⟩
      | some tm =>
        by_cases hd : tm.due ≤ s.now
        · cases ht : s.taskId.truthy
          · exact ⟨[], by simp [step, hj, hd, runCallback, checkProgress, ht]⟩
          · exact ⟨_, by simp [step, hj, hd, runCallback, checkProgress, ht, fetchAwait]; rfl⟩
        · exact ⟨[], by simp [step, hj, hd]⟩
  obtain ⟨l, hl⟩ := key
  simp [issued, hl]

/-- What one turn can issue: nothing, the upload (for a call of `uploadFile`
with a file selected), or one progress request for the identifier that is
stored, and truthy, in that turn. -/
theorem issued_cases (numStr : Int → String) (s : Page) (e : Event) :
    issued numStr s e = [] ∨
    (∃ f rest, s.files = f :: rest ∧ e = .callUploadFile ∧
      issued numStr s e = [.post uploadUrl [("file", f)]]) ∨
    ((step numStr s e).taskId.truthy = true ∧
      issued numStr s e = [.get (progressUrl numStr (step numStr s e).taskId)]) := by
  cases e with
  | selectFiles fs => left; simp [issued, step]
  | callUploadFile =>
    cases hfs : s.files with
    | nil => left; simp [issued, step, uploadFile, hfs]
    | cons f rest =>
      right; left
      exact ⟨f, rest, rfl, rfl,
        by simp [issued, step, uploadFile_cons s f rest hfs, fetchAwait]⟩
  | callCheckProgress =>
    cases ht : s.taskId.truthy
    · left; simp [issued, step, checkProgress, ht]
    · right; right; simp [issued, step, checkProgress, ht, fetchAwait]
  | uploadSettled i data =>
    by_cases hi : s.inflight[i]? = some .upload
    · cases data with
      | none => left; simp [issued, step, hi, uploadFileResume]
      | some t =>
        cases ht : t.truthy
        · left; simp [issued, step, hi, uploadFileResume, checkProgress, ht]
        · right; right; simp [issued, step, hi, uploadFileResume, checkProgress, ht, fetchAwait]
    · left; simp [issued, step, hi]
  | progressSettled i data =>
    by_cases hi : s.inflight[i]? = some .progress
    · cases data with
      | none => left; simp [issued, step, hi, checkProgressResume]
      | some p =>
        by_cases hp : p < 100
        · left; simp [issued, step, hi, checkProgressResume, setTimeout, hp]
        · left; simp [issued, step, hi, checkProgressResume, hp]
    · left; simp [issued, step, hi]
  | tick d => left; simp [issued, step]
  | timerFires j =>
    cases hj : s.timers[j]? with
    | none => left; simp [issued, step, hj]
    | some tm =>
      by_cases hd : tm.due ≤ s.now
      · cases ht : s.taskId.truthy
        · left; simp [issued, step, hj, hd, runCallback, checkProgress, ht]
        · right; right; simp [issued, step, hj, hd, runCallback, checkProgress, ht, fetchAwait]
      · left; simp [issued, step, hj, hd]

/-- Only an upload that settles with a body changes the stored identifier. -/
theorem step_taskId (numStr : Int → String) (s : Page) (e : Event) (he : e.isUploadBody = false) :
    (step numStr s e).taskId = s.taskId := by
  cases e with
  | selectFiles fs => simp [step]
  | callUploadFile =>
    by_cases h : s.files.length = 0
    · simp [step, uploadFile, h]
    · simp [step, uploadFile, h, fetchAwait]
  | callCheckProgress =>
    cases ht : s.taskId.truthy <;> simp [step, checkProgress, ht, fetchAwait]
  | uploadSettled i data =>
    cases data with
    | none =>
      by_cases hi : s.inflight[i]? = some .upload <;> simp [step, hi, uploadFileResume]
    | some t => simp [Event.isUploadBody] at he
  | progressSettled i data =>
    by_cases hi : s.inflight[i]? = some .progress
    · cases data with
      | none => simp [step, hi, checkProgressResume]
      | some p =>
        by_cases hp : p < 100 <;> simp [step, hi, checkProgressResume, setTimeout, hp]
    · simp [step, hi]
  | tick d => simp [step]
  | timerFires j =>
    cases hj : s.timers[j]? with
    | none => simp [step, hj]
    | some tm =>
      by_cases hd : tm.due ≤ s.now
      · cases ht : s.taskId.truthy <;>
          simp [step, hj, hd, runCallback, checkProgress, ht, fetchAwait]
      · simp [step, hj, hd]

/-- C5: with the files `f :: rest` selected, a call of `uploadFile` issues
exactly one request, a POST to `/upload/` whose form data has the single field
`file` with value `f`, the file at index 0, whatever `rest` is; no other turn
of the event loop issues a POST, so the call together with its continuation,
whatever the upload answers, issues that one POST and no other.  A call of
`checkProgress` with a truthy identifier issues exactly one request, a GET to
`/progress/` followed by the identifier stored at that moment, and with a
falsy identifier none; and every GET issued in any turn is of that form, for
the identifier stored in that turn. -/
theorem request_shapes (numStr : Int → String) (s : Page) (f : File) (rest : List File)
    (hf : s.files = f :: rest) :
    issued numStr s .callUploadFile = [.post "http://localhost:8000/upload/" [("file", f)]] ∧
    (∀ (s1 : Page) (e : Event), e ≠ .callUploadFile →
      ∀ r ∈ issued numStr s1 e, r.isGet = true) ∧
    (∀ data : Option JsVal,
      (issuedBy numStr s [.callUploadFile, .uploadSettled s.inflight.length data]).filter
          (fun r => !r.isGet) =
        [.post "http://localhost:8000/upload/" [("file", f)]]) ∧
    (∀ s1 : Page, s1.taskId.truthy = true →
      (checkProgress numStr s1).requests =
        s1.requests ++ [.get ("http://localhost:8000/progress/" ++ s1.taskId.toStr numStr)]) ∧
    (∀ s1 : Page, s1.taskId.truthy = false →
      (checkProgress numStr s1).requests = s1.requests) ∧
    (∀ (s1 : Page) (e : Event) (r : Request), r ∈ issued numStr s1 e → r.isGet = true →
      r = .get ("http://localhost:8000/progress/" ++ (step numStr s1 e).taskId.toStr numStr)) := by
  have hcall : issued numStr s .callUploadFile =
      [.post "http://localhost:8000/upload/" [("file", f)]] := by
    simp [issued, step, uploadFile_cons s f rest hf, fetchAwait, uploadUrl]
  have hget : ∀ (s1 : Page) (e : Event), e ≠ .callUploadFile →
      ∀ r ∈ issued numStr s1 e, r.isGet = true := by
    intro s1 e he r hr
    rcases issued_cases numStr s1 e with h | ⟨f1, rest1, _, hcf, _⟩ | ⟨_, h⟩
    · simp [h] at hr
    · exact absurd hcf he
    · rw [h] at hr
      simp at hr
      subst hr
      rfl
  refine ⟨hcall, hget, ?_, ?_, ?_, ?_⟩
  · intro data
    have hrun : run numStr s [.callUploadFile, .uploadSettled s.inflight.length data] =
        step numStr (step numStr s .callUploadFile) (.uploadSettled s.inflight.length data) :=
      rfl
    have hreq : (run numStr s [.callUploadFile, .uploadSettled s.inflight.length data]).requests =
        s.requests ++ (issued numStr s .callUploadFile ++
          issued numStr (step numStr s .callUploadFile)
            (.uploadSettled s.inflight.length data)) := by
      rw [hrun, step_requests, step_requests, List.append_assoc]
    have hall := hget (step numStr s .callUploadFile) (.uploadSettled s.inflight.length data)
      (by simp)
    have hnone : (issued numStr (step numStr s .callUploadFile)
        (.uploadSettled s.inflight.length data)).filter (fun r => !r.isGet) = [] := by
      rw [List.filter_eq_nil_iff]
      intro r hr
      simp [hall r hr]
    have hpost : [Request.post "http://localhost:8000/upload/" [("file", f)]].filter
        (fun r => !r.isGet) = [.post "http://localhost:8000/upload/" [("file", f)]] := rfl
    rw [issuedBy, hreq, List.drop_left, hcall, List.filter_append, hnone, hpost,
      List.append_nil]
  · intro s1 ht
    simp [checkProgress, ht, fetchAwait, progressUrl]
  · intro s1 ht
    simp [checkProgress, ht]
  · intro s1 e r hr hg
    rcases issued_cases numStr s1 e with h | ⟨f1, rest1, _, _, h⟩ | ⟨_, h⟩
    · simp [h] at hr
    · rw [h] at hr
      simp at hr
      subst hr
      simp [Request.isGet] at hg
    · rw [h] at hr
      simpa [progressUrl] using hr

theorem request_shapes_witness :
    (Page.load ["a.pdf", "b.pdf"] 0 "").files = "a.pdf" :: ["b.pdf"] ∧
    issued decimal (Page.load ["a.pdf", "b.pdf"] 0 "") .callUploadFile =
      [.post "http://localhost:8000/upload/" [("file", "a.pdf")]] ∧
    (issuedBy decimal (Page.load ["a.pdf", "b.pdf"] 0 "")
        [.callUploadFile, .uploadSettled 0 (some (.str "t1"))]).filter (fun r => !r.isGet) =
      [.post "http://localhost:8000/upload/" [("file", "a.pdf")]] ∧
    (checkProgress decimal
        (run decimal (Page.load ["a.pdf", "b.pdf"] 0 "")
          [.callUploadFile, .uploadSettled 0 (some (.str "t1"))])).requests =
      [.post "http://localhost:8000/upload/" [("file", "a.pdf")],
        .get "http://localhost:8000/progress/t1", .get "http://localhost:8000/progress/t1"] ∧
    issuedBy decimal (Page.load ["a.pdf", "b.pdf"] 0 "")
        [.callUploadFile, .uploadSettled 0 (some (.num 7)), .progressSettled 0 (some 10),
          .tick 2000, .timerFires 0] =
      [.post "http://localhost:8000/upload/" [("file", "a.pdf")],
        .get "http://localhost:8000/progress/7", .get "http://localhost:8000/progress/7"] :=
  ⟨rfl,
    (request_shapes decimal (Page.load ["a.pdf", "b.pdf"] 0 "") "a.pdf" ["b.pdf"] rfl).1,
    (request_shapes decimal (Page.load ["a.pdf", "b.pdf"] 0 "") "a.pdf" ["b.pdf"] rfl).2.2.1
      (some (.str "t1")),
    ((request_shapes decimal (Page.load ["a.pdf", "b.pdf"] 0 "") "a.pdf" ["b.pdf"] rfl).2.2.2.1
      (run decimal (Page.load ["a.pdf", "b.pdf"] 0 "")
        [.callUploadFile, .uploadSettled 0 (some (.str "t1"))]) (by decide)).trans (by decide),
    by decide⟩

/-- C6: when an upload in flight fails (`fetch` or `response.json()` rejects),
`uploadFile` ends in an unhandled error and nothing else happens: the page is
as before except that the suspended call is gone and one more rejection is
unhandled, so the stored identifier, the timers, the progress bar and the
status text are unchanged and no request is issued; and the call of
`uploadFile` itself had changed none of them either. -/
theorem upload_failure_changes_nothing (numStr : Int → String) (s : Page) (i : Nat)
    (hi : s.inflight[i]? = some .upload) :
    step numStr s (.uploadSettled i none) =
      { s with inflight := s.inflight.eraseIdx i, errors := s.errors + 1 } ∧
    issued numStr s (.uploadSettled i none) = [] ∧
    ∀ s0 : Page, (step numStr s0 .callUploadFile).taskId = s0.taskId ∧
      (step numStr s0 .callUploadFile).timers = s0.timers ∧
      (step numStr s0 .callUploadFile).progressBar = s0.progressBar ∧
      (step numStr s0 .callUploadFile).status = s0.status ∧
      (step numStr s0 .callUploadFile).errors = s0.errors := by
  refine ⟨by simp [step, hi, uploadFileResume],
    by simp [issued, step, hi, uploadFileResume], ?_⟩
  intro s0
  by_cases h : s0.files.length = 0
  · simp [step, uploadFile, h]
  · simp [step, uploadFile, h, fetchAwait]

theorem upload_failure_changes_nothing_witness :
    (step decimal (Page.load ["a.pdf"] 0 "") .callUploadFile).inflight[0]? = some .upload ∧
      step decimal (step decimal (Page.load ["a.pdf"] 0 "") .callUploadFile)
          (.uploadSettled 0 none) =
        { step decimal (Page.load ["a.pdf"] 0 "") .callUploadFile with
          inflight := (step decimal (Page.load ["a.pdf"] 0 "") .callUploadFile).inflight.eraseIdx 0,
          errors := (step decimal (Page.load ["a.pdf"] 0 "") .callUploadFile).errors + 1 } :=
  ⟨by decide,
    (upload_failure_changes_nothing decimal
      (step decimal (Page.load ["a.pdf"] 0 "") .callUploadFile) 0
      (by decide)).1⟩

/-- C7: when a poll in flight fails (`fetch` or `response.json()` rejects),
`checkProgress` ends in an unhandled error and nothing else happens: the page
is as before except that the suspended call is gone and one more rejection is
unhandled, so no timer is scheduled, no request is issued, and the progress
bar, the status text and the stored identifier are unchanged; and the call of
`checkProgress` that issued the poll had changed none of them either. -/
theorem poll_failure_changes_nothing (numStr : Int → String) (s : Page) (i : Nat)
    (hi : s.inflight[i]? = some .progress) :
    step numStr s (.progressSettled i none) =
      { s with inflight := s.inflight.eraseIdx i, errors := s.errors + 1 } ∧
    issued numStr s (.progressSettled i none) = [] ∧
    ∀ s0 : Page, (checkProgress numStr s0).taskId = s0.taskId ∧
      (checkProgress numStr s0).timers = s0.timers ∧
      (checkProgress numStr s0).progressBar = s0.progressBar ∧
      (checkProgress numStr s0).status = s0.status ∧
      (checkProgress numStr s0).errors = s0.errors := by
  refine ⟨by simp [step, hi, checkProgressResume],
    by simp [issued, step, hi, checkProgressResume], ?_⟩
  intro s0
  cases ht : s0.taskId.truthy <;> simp [checkProgress, ht, fetchAwait]

theorem poll_failure_changes_nothing_witness :
    (run decimal (Page.load ["a.pdf"] 0 "")
        [.callUploadFile, .uploadSettled 0 (some (.str "t1"))]).inflight[0]? = some .progress ∧
      issued decimal (run decimal (Page.load ["a.pdf"] 0 "")
        [.callUploadFile, .uploadSettled 0 (some (.str "t1"))]) (.progressSettled 0 none) = [] :=
  ⟨by decide,
    (poll_failure_changes_nothing decimal
      (run decimal (Page.load ["a.pdf"] 0 "")
        [.callUploadFile, .uploadSettled 0 (some (.str "t1"))])
      0 (by decide)).2.1⟩

/-- While no upload settles with a body, the stored identifier stays what it
is and every progress request of the run is for it. -/
theorem run_polls_stored_id (numStr : Int → String) (es : List Event) (s : Page)
    (hes : ∀ e ∈ es, e.isUploadBody = false) :
    (run numStr s es).taskId = s.taskId ∧
    ∃ l, (run numStr s es).requests = s.requests ++ l ∧
      ∀ r ∈ l, r.isGet = true → r = .get (progressUrl numStr s.taskId) := by
  induction es generalizing s with
  | nil => exact ⟨rfl, [], by simp [run], by simp⟩
  | cons e es ih =>
    have he : e.isUploadBody = false := hes e (by simp)
    have hid : (step numStr s e).taskId = s.taskId := step_taskId numStr s e he
    obtain ⟨h1, l, h2, h3⟩ := ih (step numStr s e) (fun x hx => hes x (by simp [hx]))
    have hrun : run numStr s (e :: es) = run numStr (step numStr s e) es := rfl
    refine ⟨by rw [hrun, h1, hid], issued numStr s e ++ l, ?_, ?_⟩
    · rw [hrun, h2, step_requests, List.append_assoc]
    · intro r hr hg
      rcases List.mem_append.mp hr with hr | hr
      · rcases issued_cases numStr s e with h | ⟨f1, rest1, _, _, h⟩ | ⟨_, h⟩
        · simp [h] at hr
        · rw [h] at hr
          simp at hr
          subst hr
          simp [Request.isGet] at hg
        · rw [h, hid] at hr
          simpa using hr
      · rw [← hid]
        exact h3 r hr hg

/-- Two identifiers with different string forms have different progress
endpoints. -/
theorem progressUrl_injective (numStr : Int → String)
    (t1 t2 : JsVal) (h : t1.toStr numStr ≠ t2.toStr numStr) :
    progressUrl numStr t1 ≠ progressUrl numStr t2 := by
  intro heq
  apply h
  have hd := congrArg String.data heq
  simp only [progressUrl, String.data_append] at hd
  exact String.ext (List.append_cancel_left hd)

/-- The two status texts never coincide. -/
theorem progressText_ne_doneText (numStr : Int → String)
    (p : Int) : progressText numStr p ≠ doneText := by
  intro heq
  have hd := congrArg String.data heq
  simp only [progressText, doneText, String.data_append] at hd
  have hh := congrArg List.head? hd
  simp only [List.append_assoc, List.cons_append, List.head?_cons] at hh
  exact absurd hh (by decide)

/-- C8: start from the loaded page (identifier `null`) and let any events
happen, in any order.  Whatever happens next, each progress request issued in
that turn is issued while the stored identifier (the one the turn leaves,
since no assignment follows a `fetch`) is not `null`, and it queries that
identifier; and `checkProgress` called in any state whose identifier is `null`
returns the page as it is: no request, no timer, no change. -/
theorem polls_only_with_identifier (numStr : Int → String)
    (files : List File) (bar : Int) (status : String)
    (es : List Event) :
    (∀ (e : Event) (r : Request),
      r ∈ issued numStr (run numStr (Page.load files bar status) es) e → r.isGet = true →
        (step numStr (run numStr (Page.load files bar status) es) e).taskId ≠ .null ∧
        r = .get (progressUrl numStr
          (step numStr (run numStr (Page.load files bar status) es) e).taskId)) ∧
    (∀ s : Page, s.taskId = .null →
      checkProgress numStr s = s ∧ step numStr s .callCheckProgress = s ∧
        issued numStr s .callCheckProgress = []) := by
  constructor
  · intro e r hr hg
    rcases issued_cases numStr (run numStr (Page.load files bar status) es) e with
      h | ⟨f1, rest1, _, _, h⟩ | ⟨ht, h⟩
    · simp [h] at hr
    · rw [h] at hr
      simp at hr
      subst hr
      simp [Request.isGet] at hg
    · rw [h] at hr
      exact ⟨truthy_ne_null _ ht, by simpa using hr⟩
  · intro s hnull
    have hc : checkProgress numStr s = s :=
      checkProgress_falsy numStr s (by simp [hnull, JsVal.truthy])
    have hst : step numStr s .callCheckProgress = s := hc
    exact ⟨hc, hst, by simp [issued, hst]⟩

theorem polls_only_with_identifier_witness :
    (step decimal (run decimal (Page.load ["a.pdf"] 0 "")
        [.callCheckProgress, .callUploadFile, .uploadSettled 0 (some (.str "t1")),
          .progressSettled 0 (some 10), .tick 2000])
      (.timerFires 0)).taskId ≠ .null ∧
    checkProgress decimal (Page.load ["a.pdf"] 0 "") = Page.load ["a.pdf"] 0 "" :=
  ⟨((polls_only_with_identifier decimal ["a.pdf"] 0 ""
      [.callCheckProgress, .callUploadFile, .uploadSettled 0 (some (.str "t1")),
        .progressSettled 0 (some 10), .tick 2000]).1
      (.timerFires 0) (.get (progressUrl decimal (.str "t1"))) (by decide) rfl).1,
    ((polls_only_with_identifier decimal ["a.pdf"] 0 "" []).2 (Page.load ["a.pdf"] 0 "") rfl).1⟩

/-- C9 (counterexample): a poll of a first upload (identifier `"t1"`) waits on
its timer when a second upload answers with the identifier `""`.  No second
chain starts, and when the timer of the first chain fires it issues nothing
either: no poll is in flight, no timer is pending. -/
theorem overlapping_upload_with_empty_id_ends_polling :
    (run decimal (Page.load ["a.pdf"] 0 "")
        [.callUploadFile, .uploadSettled 0 (some (.str "t1")), .progressSettled 0 (some 10),
          .callUploadFile]).timers =
      [{ callback := .checkProgress, delay := 2000, due := 2000 }] ∧
    (run decimal (Page.load ["a.pdf"] 0 "")
        [.callUploadFile, .uploadSettled 0 (some (.str "t1")), .progressSettled 0 (some 10),
          .callUploadFile]).inflight = [.upload] ∧
    (run decimal (Page.load ["a.pdf"] 0 "")
        [.callUploadFile, .uploadSettled 0 (some (.str "t1")), .progressSettled 0 (some 10),
          .callUploadFile, .uploadSettled 0 (some (.str ""))]).inflight = [] ∧
    issuedBy decimal (run decimal (Page.load ["a.pdf"] 0 "")
        [.callUploadFile, .uploadSettled 0 (some (.str "t1")), .progressSettled 0 (some 10),
          .callUploadFile])
      [.uploadSettled 0 (some (.str "")), .tick 2000, .timerFires 0] = [] ∧
    (run decimal (Page.load ["a.pdf"] 0 "")
        [.callUploadFile, .uploadSettled 0 (some (.str "t1")), .progressSettled 0 (some 10),
          .callUploadFile, .uploadSettled 0 (some (.str "")), .tick 2000,
          .timerFires 0]).inflight = [] ∧
    (run decimal (Page.load ["a.pdf"] 0 "")
        [.callUploadFile, .uploadSettled 0 (some (.str "t1")), .progressSettled 0 (some 10),
          .callUploadFile, .uploadSettled 0 (some (.str "")), .tick 2000,
          .timerFires 0]).timers = [] := by
  decide

/-- C9 (amended): a second upload in flight answers with a truthy identifier
`t2` while a timer `tm` of an earlier poll chain is pending.  The identifier
becomes `t2`; the pending timers are kept as they are (nothing is cancelled);
a new chain starts with one request for `t2`.  When `tm` fires, the old chain
issues its own request, also for `t2`, next to the one already in flight
(nothing is merged).  And as long as no further upload answers, every
progress request issued afterwards is for `t2`, whose endpoint differs from
that of any identifier with another string form. -/
theorem overlapping_uploads_poll_latest (numStr : Int → String)
    (s : Page) (i j : Nat) (tm : Timer) (t2 : JsVal)
    (hup : s.inflight[i]? = some .upload) (htm : s.timers[j]? = some tm)
    (ht2 : t2.truthy = true) :
    (step numStr s (.uploadSettled i (some t2))).taskId = t2 ∧
    (step numStr s (.uploadSettled i (some t2))).timers = s.timers ∧
    (step numStr s (.uploadSettled i (some t2))).inflight = s.inflight.eraseIdx i ++ [.progress] ∧
    issued numStr s (.uploadSettled i (some t2)) = [.get (progressUrl numStr t2)] ∧
    (∀ d : Nat, tm.due ≤ s.now + d →
      issued numStr (step numStr (step numStr s (.uploadSettled i (some t2))) (.tick d))
          (.timerFires j) =
        [.get (progressUrl numStr t2)] ∧
      (step numStr (step numStr (step numStr s (.uploadSettled i (some t2))) (.tick d))
          (.timerFires j)).inflight =
        s.inflight.eraseIdx i ++ [.progress] ++ [.progress] ∧
      (step numStr (step numStr (step numStr s (.uploadSettled i (some t2))) (.tick d))
          (.timerFires j)).timers =
        s.timers.eraseIdx j) ∧
    (∀ es : List Event, (∀ e ∈ es, e.isUploadBody = false) →
      ∀ r ∈ issuedBy numStr (step numStr s (.uploadSettled i (some t2))) es, r.isGet = true →
        r = .get (progressUrl numStr t2)) ∧
    (∀ t1 : JsVal, t1.toStr numStr ≠ t2.toStr numStr →
      Request.get (progressUrl numStr t2) ≠ Request.get (progressUrl numStr t1)) := by
  have hs2 : step numStr s (.uploadSettled i (some t2)) =
      { s with taskId := t2, inflight := s.inflight.eraseIdx i ++ [.progress],
               requests := s.requests ++ [.get (progressUrl numStr t2)] } := by
    simp [step, hup, uploadFileResume, checkProgress, ht2, fetchAwait]
  refine ⟨by rw [hs2], by rw [hs2], by rw [hs2], by simp [issued, hs2], ?_, ?_, ?_⟩
  · intro d hd
    rw [hs2]
    simp [issued, step, htm, hd, runCallback, checkProgress, ht2, fetchAwait]
  · intro es hes r hr hg
    obtain ⟨hid, l, hl, hall⟩ :=
      run_polls_stored_id numStr es (step numStr s (.uploadSettled i (some t2))) hes
    have hr2 : r ∈ l := by simpa [issuedBy, hl] using hr
    have := hall r hr2 hg
    rw [this, hs2]
  · intro t1 h heq
    exact progressUrl_injective numStr t1 t2 h (Request.get.inj heq).symm

theorem overlapping_uploads_poll_latest_witness :
    issued decimal (step decimal (step decimal (run decimal (Page.load ["a.pdf"] 0 "")
        [.callUploadFile, .uploadSettled 0 (some (.str "t1")), .progressSettled 0 (some 10),
          .callUploadFile]) (.uploadSettled 0 (some (.str "t2")))) (.tick 2000))
      (.timerFires 0) = [.get (progressUrl decimal (.str "t2"))] ∧
    (step decimal (step decimal (step decimal (run decimal (Page.load ["a.pdf"] 0 "")
        [.callUploadFile, .uploadSettled 0 (some (.str "t1")), .progressSettled 0 (some 10),
          .callUploadFile]) (.uploadSettled 0 (some (.str "t2")))) (.tick 2000))
      (.timerFires 0)).inflight = [.progress, .progress] :=
  ⟨((overlapping_uploads_poll_latest decimal
      (run decimal (Page.load ["a.pdf"] 0 "")
        [.callUploadFile, .uploadSettled 0 (some (.str "t1")), .progressSettled 0 (some 10),
          .callUploadFile])
      0 0 { callback := .checkProgress, delay := 2000, due := 2000 } (.str "t2")
      (by decide) (by decide) (by decide)).2.2.2.2.1 2000 (by decide)).1,
    ((overlapping_uploads_poll_latest decimal
      (run decimal (Page.load ["a.pdf"] 0 "")
        [.callUploadFile, .uploadSettled 0 (some (.str "t1")), .progressSettled 0 (some 10),
          .callUploadFile])
      0 0 { callback := .checkProgress, delay := 2000, due := 2000 } (.str "t2")
      (by decide) (by decide) (by decide)).2.2.2.2.1 2000 (by decide)).2.1⟩

/-- C10: when a poll in flight is answered with progress `p`, afterwards the
progress bar value is `p`; the status text is the progress text built from `p`
(the prefix, the language's string form of `p`, the percent sign) if `p < 100`
and the completion message otherwise; the two texts differ whatever the string
form of `p` is, so for `p` of 100 or more the progress text is not the status
text left. -/
theorem display_after_poll (numStr : Int → String) (s : Page) (i : Nat) (p : Int)
    (hi : s.inflight[i]? = some .progress) :
    (step numStr s (.progressSettled i (some p))).progressBar = p ∧
    (p < 100 →
      (step numStr s (.progressSettled i (some p))).status =
        "Прогресс: " ++ numStr p ++ "%") ∧
    (¬ p < 100 →
      (step numStr s (.progressSettled i (some p))).status =
        "Готово! Можно скачать результат.") ∧
    (100 ≤ p →
      (step numStr s (.progressSettled i (some p))).status ≠ progressText numStr p) := by
  by_cases hp : p < 100
  · have hp2 : ¬ 100 ≤ p := not_le.mpr hp
    simp [step, hi, checkProgressResume, setTimeout, hp, hp2, progressText]
  · have hp2 : 100 ≤ p := not_lt.mp hp
    have hne : doneText ≠ progressText numStr p :=
      fun h => progressText_ne_doneText numStr p h.symm
    simp [step, hi, checkProgressResume, hp, hp2, doneText]
    simpa [doneText] using hne

theorem display_after_poll_witness :
    (step decimal (run decimal (Page.load ["a.pdf"] 0 "")
        [.callUploadFile, .uploadSettled 0 (some (.str "t1"))])
      (.progressSettled 0 (some 50))).progressBar = 50 ∧
    (step decimal (run decimal (Page.load ["a.pdf"] 0 "")
        [.callUploadFile, .uploadSettled 0 (some (.str "t1"))])
      (.progressSettled 0 (some 50))).status = "Прогресс: 50%" ∧
    (step decimal (run decimal (Page.load ["a.pdf"] 0 "")
        [.callUploadFile, .uploadSettled 0 (some (.str "t1"))])
      (.progressSettled 0 (some 100))).status = "Готово! Можно скачать результат." :=
  ⟨(display_after_poll decimal
      (run decimal (Page.load ["a.pdf"] 0 "")
        [.callUploadFile, .uploadSettled 0 (some (.str "t1"))])
      0 50 (by decide)).1,
    ((display_after_poll decimal
      (run decimal (Page.load ["a.pdf"] 0 "")
        [.callUploadFile, .uploadSettled 0 (some (.str "t1"))])
      0 50 (by decide)).2.1 (by decide)).trans (by decide),
    (display_after_poll decimal
      (run decimal (Page.load ["a.pdf"] 0 "")
        [.callUploadFile, .uploadSettled 0 (some (.str "t1"))])
      0 100 (by decide)).2.2.1 (by decide)⟩

end FastParser
